import Mathlib

/-!
Verification development for the lnx ingestion-time value model
(`src/lnx-document/src/value.rs`) and the stop-word corpus loader
(`src/engine/src/stop_words.rs`).

Machine integers are modelled as `Int` with the `i64` range made explicit;
fallible operations return `Option` / `Except`, mirroring the Rust
`Option` / `anyhow::Result` signatures.
-/

namespace Lnx

/-- `i64::MIN` as an integer. -/
def i64Min : Int := -9223372036854775808

/-- `i64::MAX` as an integer. -/
def i64Max : Int := 9223372036854775807

/-- `i64::checked_mul`: the product when it fits in a signed 64-bit
integer, `none` on overflow. -/
def checked_mul (a b : Int) : Option Int :=
  if i64Min ≤ a * b ∧ a * b ≤ i64Max then some (a * b) else none

/-- `DateTime` from `value.rs`: a wrapper around an `i64` timestamp with
microsecond precision. -/
structure DateTime where
  micros : Int
deriving DecidableEq, Repr

/-- `DateTime::MAX`. -/
def DateTime.MAX : DateTime := ⟨i64Max⟩

/-- `DateTime::MIN`. -/
def DateTime.MIN : DateTime := ⟨i64Min⟩

/-- `DateTime::from_micros`: always `Some`, stores the value unchanged. -/
def DateTime.from_micros (v : Int) : Option DateTime :=
  some ⟨v⟩

/-- `DateTime::from_millis`: checked multiplication by 1000, then
`from_micros`. -/
def DateTime.from_millis (v : Int) : Option DateTime :=
  (checked_mul v 1000).bind DateTime.from_micros

/-- `DateTime::from_secs`: checked multiplication by 1000, then
`from_millis`. -/
def DateTime.from_secs (v : Int) : Option DateTime :=
  (checked_mul v 1000).bind DateTime.from_millis

/-- `DateTime::as_micros`. -/
def DateTime.as_micros (d : DateTime) : Int :=
  d.micros

/-- `Facet` from `value.rs`: a new-type wrapper around text (the Rust
`Cow<str>` is modelled as a `String`); it performs no validation. -/
structure Facet where
  text : String
deriving DecidableEq, Repr

/-- `From<&str> for Facet` / `From<String> for Facet`: wraps the text,
total, no validation. -/
def Facet.fromText (s : String) : Facet :=
  ⟨s⟩

/-- `Facet::as_str`. -/
def Facet.as_str (f : Facet) : String :=
  f.text

/-- The storage collaborator's native facet representation
(`tantivy::schema::Facet`), abstracted as its parsed path text. -/
structure TantivyFacet where
  path : String
deriving DecidableEq, Repr

/-- `tantivy::schema::FacetParseError`, carrying the offending text. -/
inductive FacetParseError where
  | facetParseError : String → FacetParseError
deriving DecidableEq, Repr

/-- Modelled from the spec: `tantivy::schema::Facet::from_text` is code of
the storage collaborator, not of this repository; the spec leaves its path
grammar external, so the grammar is abstracted as a boolean predicate on
text. `Facet::to_tantivy_facet` parses the held text and fails with a
parse error exactly when the text violates the grammar. -/
def Facet.to_tantivy_facet (grammar : String → Bool) (f : Facet) :
    Except FacetParseError TantivyFacet :=
  if grammar f.text then Except.ok ⟨f.text⟩
  else Except.error (FacetParseError.facetParseError f.text)

/-- `std::net::Ipv4Addr`: four octets. -/
structure Ipv4Addr where
  a : Nat
  b : Nat
  c : Nat
  d : Nat
deriving DecidableEq, Repr

/-- `std::net::Ipv6Addr`, modelled by its sixteen-octet representation. -/
structure Ipv6Addr where
  octets : List Nat
deriving DecidableEq, Repr

/-- `Ipv4Addr::to_ipv6_mapped`: the canonical IPv4-mapped IPv6 address
`::ffff:a.b.c.d`. -/
def Ipv4Addr.to_ipv6_mapped (v : Ipv4Addr) : Ipv6Addr :=
  ⟨[0, 0, 0, 0, 0, 0, 0, 0, 0, 0, 0xff, 0xff, v.a, v.b, v.c, v.d]⟩

/-- `FieldType`: the twelve field-type tags. -/
inductive FieldType where
  | Null
  | String
  | U64
  | I64
  | F64
  | Bool
  | Facet
  | DateTime
  | IpAddr
  | Bytes
  | Array
  | Object
deriving DecidableEq, Repr

/-- The list of all twelve field-type tags. -/
def FieldType.all : List FieldType :=
  [FieldType.Null, FieldType.String, FieldType.U64, FieldType.I64,
   FieldType.F64, FieldType.Bool, FieldType.Facet, FieldType.DateTime,
   FieldType.IpAddr, FieldType.Bytes, FieldType.Array, FieldType.Object]

/-- `Value` from `value.rs`: the closed tagged union of document values.
`Cow<str>` is a `String`, `u64` a `Nat`, `i64` an `Int`, `f64` a `Float`,
bytes a list of octets; `Object` is an ordered pair list that may repeat
keys. -/
inductive Value where
  | Null : Value
  | Str : String → Value
  | U64 : Nat → Value
  | I64 : Int → Value
  | F64 : Float → Value
  | Bool : Bool → Value
  | Facet : Facet → Value
  | DateTime : DateTime → Value
  | IpAddr : Ipv6Addr → Value
  | Bytes : List Nat → Value
  | Array : List Value → Value
  | Object : List (String × Value) → Value

/-- `Value::as_field_type`. -/
def Value.as_field_type : Value → FieldType
  | Value.Null => FieldType.Null
  | Value.Str _ => FieldType.String
  | Value.U64 _ => FieldType.U64
  | Value.I64 _ => FieldType.I64
  | Value.F64 _ => FieldType.F64
  | Value.Bool _ => FieldType.Bool
  | Value.Facet _ => FieldType.Facet
  | Value.DateTime _ => FieldType.DateTime
  | Value.IpAddr _ => FieldType.IpAddr
  | Value.Bytes _ => FieldType.Bytes
  | Value.Array _ => FieldType.Array
  | Value.Object _ => FieldType.Object

/-- `impl UserDisplayType for Value`: the display-name table on owned
values, transcribed in source order. -/
def Value.type_name : Value → String
  | Value.Null => "null"
  | Value.Str _ => "string"
  | Value.U64 _ => "u64"
  | Value.I64 _ => "i64"
  | Value.F64 _ => "f64"
  | Value.Bool _ => "bool"
  | Value.Facet _ => "facet"
  | Value.DateTime _ => "datetime"
  | Value.Bytes _ => "bytes"
  | Value.Array _ => "array"
  | Value.Object _ => "object"
  | Value.IpAddr _ => "ip"

/-- `impl UserDisplayType for &Value`: the duplicated display-name table
on references, transcribed in source order. -/
def Value.type_name_ref : Value → String
  | Value.Null => "null"
  | Value.Str _ => "string"
  | Value.U64 _ => "u64"
  | Value.I64 _ => "i64"
  | Value.F64 _ => "f64"
  | Value.Bool _ => "bool"
  | Value.Facet _ => "facet"
  | Value.DateTime _ => "datetime"
  | Value.Bytes _ => "bytes"
  | Value.Array _ => "array"
  | Value.Object _ => "object"
  | Value.IpAddr _ => "ip"

/-- Whether two values carry the same variant, independent of the data. -/
def sameVariant : Value → Value → Bool
  | Value.Null, Value.Null => true
  | Value.Str _, Value.Str _ => true
  | Value.U64 _, Value.U64 _ => true
  | Value.I64 _, Value.I64 _ => true
  | Value.F64 _, Value.F64 _ => true
  | Value.Bool _, Value.Bool _ => true
  | Value.Facet _, Value.Facet _ => true
  | Value.DateTime _, Value.DateTime _ => true
  | Value.IpAddr _, Value.IpAddr _ => true
  | Value.Bytes _, Value.Bytes _ => true
  | Value.Array _, Value.Array _ => true
  | Value.Object _, Value.Object _ => true
  | _, _ => false

/-- `From<Ipv4Addr> for Value`: maps the address to IPv4-mapped IPv6 form
before wrapping. -/
def Value.fromIpv4Addr (v : Ipv4Addr) : Value :=
  Value.IpAddr v.to_ipv6_mapped

/-- `From<Ipv6Addr> for Value`: wraps the address unchanged. -/
def Value.fromIpv6Addr (v : Ipv6Addr) : Value :=
  Value.IpAddr v

/-- The stop-word once-cell contents: `None` before initialization,
`Some words` after. -/
abbrev StopWordsCell := Option (List String)

/-- `once_cell::sync::OnceCell::set`, result discarded as in the source
(`let _ = STOP_WORDS.set(words)`): stores the value only when the cell is
still empty, never replaces an existing value. -/
def oncecellSet (cell : StopWordsCell) (v : List String) : StopWordsCell :=
  match cell with
  | none => some v
  | some w => some w

/-- The line-split loop of `init_stop_words`: split the decoded text on
the one-character separator `"\n"` and collect every piece in order,
empty pieces included (modelled character-wise, which coincides with the
Rust `str::split` for a single-character pattern). -/
def splitWords (text : String) : List String :=
  (text.data.splitOn '\n').map (fun cs => String.mk cs)

/-- Modelled from the spec: the decompression of the embedded payload and
its UTF-8 decoding — the source's decompression step is defective (it
feeds an undefined `buffer` into a decoder over an empty vec; the spec's
open-questions section records the intent as decompressing the embedded
bytes), so that stage is represented by its outcome `decoded`. The rest
follows the source: on decode failure the error propagates and the cell is
untouched; on success the text is split on line breaks and published via
the once-cell, whose set-result is discarded, and `Ok` is returned. -/
def init_stop_words (decoded : Except String String) (cell : StopWordsCell) :
    StopWordsCell × Except String Unit :=
  match decoded with
  | Except.error e => (cell, Except.error e)
  | Except.ok text => (oncecellSet cell (splitWords text), Except.ok ())

/-- `get_stop_words`: a typed error before initialization, otherwise a
clone (an independent copy) of the stored word list; the cell itself is
never modified by a read. -/
def get_stop_words (cell : StopWordsCell) : Except String (List String) :=
  match cell with
  | some words => Except.ok words
  | none => Except.error "stop words was not initialised at time of calling."

/-- C1 counterexample: at `v = 9223372036854775`, `v * 1000` fits in a
signed 64-bit integer, yet `DateTime::from_secs(v)` returns no value
(because `v * 1_000_000` overflows), refuting the claim as stated. -/
theorem c1_counterexample :
    (i64Min ≤ 9223372036854775 * 1000 ∧ 9223372036854775 * 1000 ≤ i64Max)
    ∧ DateTime.from_secs 9223372036854775 = none := by
  constructor
  · constructor <;> decide
  · decide

/-- C1 (amended): for every i64 value `v` such that `v * 1_000_000` does
not overflow a signed 64-bit integer, `DateTime::from_secs(v)` returns a
value, and that value equals `DateTime::from_micros(v * 1_000_000)`. -/
theorem c1_from_secs_eq_from_micros (v : Int)
    (h1 : i64Min ≤ v * 1000000) (h2 : v * 1000000 ≤ i64Max) :
    DateTime.from_secs v = DateTime.from_micros (v * 1000000) := by
  have h3 : i64Min ≤ v * 1000 ∧ v * 1000 ≤ i64Max := by
    simp only [i64Min, i64Max] at *
    omega
  have h5 : v * 1000 * 1000 = v * 1000000 := by ring
  unfold DateTime.from_secs checked_mul
  rw [if_pos h3]
  show DateTime.from_millis (v * 1000) = DateTime.from_micros (v * 1000000)
  unfold DateTime.from_millis checked_mul
  rw [h5, if_pos ⟨h1, h2⟩]
  rfl

/-- Witness for C1's amended theorem at `v = 5`. -/
theorem c1_witness :
    i64Min ≤ (5 : Int) * 1000000 ∧ (5 : Int) * 1000000 ≤ i64Max
    ∧ DateTime.from_secs 5 = DateTime.from_micros (5 * 1000000) :=
  ⟨by decide, by decide, c1_from_secs_eq_from_micros 5 (by decide) (by decide)⟩

/-- C4: for every i64 value `v`, `DateTime::from_micros(v)` returns a
value, and that value satisfies `as_micros() == v`. -/
theorem c4_from_micros_roundtrip (v : Int)
    (_h1 : i64Min ≤ v) (_h2 : v ≤ i64Max) :
    ∃ dt, DateTime.from_micros v = some dt ∧ dt.as_micros = v :=
  ⟨⟨v⟩, rfl, rfl⟩

/-- Witness for C4 at `v = 42`. -/
theorem c4_witness :
    i64Min ≤ (42 : Int) ∧ (42 : Int) ≤ i64Max
    ∧ ∃ dt, DateTime.from_micros 42 = some dt ∧ dt.as_micros = 42 :=
  ⟨by decide, by decide, c4_from_micros_roundtrip 42 (by decide) (by decide)⟩

/-- C5: `DateTime::from_secs(i64::MAX)` is `none`, with the overflow
detected at the first scaling step (`checked_mul` by 1000 fails); and in
general `from_millis` returns `none` exactly when its checked
multiplication overflows, while `from_secs` returns `none` exactly when
one of its two checked multiplications toward microseconds overflows. -/
theorem c5_overflow_yields_none :
    DateTime.from_secs i64Max = none
    ∧ checked_mul i64Max 1000 = none
    ∧ (∀ v : Int, (DateTime.from_millis v = none ↔ checked_mul v 1000 = none))
    ∧ (∀ v : Int, (DateTime.from_secs v = none ↔
        checked_mul v 1000 = none
        ∨ ∃ m, checked_mul v 1000 = some m ∧ checked_mul m 1000 = none)) := by
  refine ⟨by decide, by decide, ?_, ?_⟩
  · intro v
    unfold DateTime.from_millis
    cases hm : checked_mul v 1000 <;>
      simp [Option.bind, DateTime.from_micros]
  · intro v
    unfold DateTime.from_secs
    cases hm : checked_mul v 1000 with
    | none => simp [Option.bind]
    | some m =>
      simp only [Option.bind, reduceCtorEq, false_or]
      unfold DateTime.from_millis
      cases hm2 : checked_mul m 1000 <;>
        simp_all [Option.bind, DateTime.from_micros]

/-- C3: `as_field_type` is a total pure function of the variant: every
value maps to one of the twelve field-type tags, and two values carry the
same variant exactly when they receive the same tag, independent of the
contained data. -/
theorem c3_as_field_type_pure_total :
    (∀ v : Value, v.as_field_type ∈ FieldType.all)
    ∧ ∀ v w : Value, (sameVariant v w = true ↔ v.as_field_type = w.as_field_type) := by
  constructor
  · intro v
    cases v <;> simp [Value.as_field_type, FieldType.all]
  · intro v w
    cases v <;> cases w <;>
      simp [sameVariant, Value.as_field_type]

/-- C6: converting a 32-bit IPv4 address into a `Value` produces the
`IpAddr` variant holding its IPv4-mapped IPv6 form, equal to converting
the mapped 128-bit address directly, and both report type name `"ip"`. -/
theorem c6_ipv4_mapped_value (a : Ipv4Addr) :
    Value.fromIpv4Addr a = Value.fromIpv6Addr a.to_ipv6_mapped
    ∧ (Value.fromIpv4Addr a).type_name = "ip"
    ∧ (Value.fromIpv6Addr a.to_ipv6_mapped).type_name = "ip" :=
  ⟨rfl, rfl, rfl⟩

/-- C7: constructing a `Facet` from any text always succeeds and stores
the text unchanged (no validation), and `to_tantivy_facet` fails — with a
parse error carrying the offending text — exactly when the text violates
the path grammar. -/
theorem c7_facet_deferred_validation (grammar : String → Bool) (s : String) :
    (Facet.fromText s).as_str = s
    ∧ ((Facet.fromText s).to_tantivy_facet grammar
        = Except.error (FacetParseError.facetParseError s) ↔ grammar s = false)
    ∧ (grammar s = true →
        (Facet.fromText s).to_tantivy_facet grammar = Except.ok ⟨s⟩) := by
  refine ⟨rfl, ?_, ?_⟩
  · unfold Facet.to_tantivy_facet Facet.fromText
    cases h : grammar s <;> simp [h]
  · intro h
    unfold Facet.to_tantivy_facet Facet.fromText
    simp [h]

/-- Witness for C7 at the grammar "first character is a slash" and the texts
`"/a/b"` (valid) and `"oops"` (invalid). -/
theorem c7_witness :
    ((Facet.fromText "oops").as_str = "oops"
      ∧ ((Facet.fromText "oops").to_tantivy_facet (fun t => t.toList.head? == some '/')
          = Except.error (FacetParseError.facetParseError "oops")
        ↔ (fun t : String => t.toList.head? == some '/') "oops" = false)
      ∧ ((fun t : String => t.toList.head? == some '/') "oops" = true →
          (Facet.fromText "oops").to_tantivy_facet (fun t => t.toList.head? == some '/')
            = Except.ok ⟨"oops"⟩))
    ∧ (fun t : String => t.toList.head? == some '/') "/a/b" = true
    ∧ (Facet.fromText "/a/b").to_tantivy_facet (fun t => t.toList.head? == some '/')
        = Except.ok ⟨"/a/b"⟩ :=
  ⟨c7_facet_deferred_validation (fun t => t.toList.head? == some '/') "oops",
   by decide,
   (c7_facet_deferred_validation (fun t => t.toList.head? == some '/') "/a/b").2.2 (by decide)⟩

/-- C10: the two duplicated display-name dispatch tables — the one on
owned values and the one on references — map every variant to the same
name string. -/
theorem c10_type_name_tables_agree :
    ∀ v : Value, v.type_name = Value.type_name_ref v := by
  intro v
  cases v <;> rfl

/-- C2: the intended stop-word pipeline — when the embedded payload
decompresses and UTF-8 decodes to `"the\na\nan\nof"`, the text splits on
line breaks into `["the", "a", "an", "of"]` in order, and after a
successful initialization from the uninitialized state `get_stop_words`
returns exactly that sequence. (The source's decompression step is
defective; see `init_stop_words`.) -/
theorem c2_stop_word_pipeline :
    splitWords "the\na\nan\nof" = ["the", "a", "an", "of"]
    ∧ get_stop_words (init_stop_words (Except.ok "the\na\nan\nof") none).1
        = Except.ok ["the", "a", "an", "of"] := by
  constructor <;> rfl

/-- C8: `get_stop_words` on the uninitialized cell returns the typed
"not yet initialised" error rather than panicking; on an initialized cell
it returns the stored sequence (a clone, so the cell is unchanged and
repeated calls agree), and after any successful initialization every call
succeeds. -/
theorem c8_get_stop_words_behaviour :
    get_stop_words none
      = Except.error "stop words was not initialised at time of calling."
    ∧ (∀ ws : List String, get_stop_words (some ws) = Except.ok ws)
    ∧ (∀ text : String, ∀ cell : StopWordsCell,
        ∃ ws, get_stop_words (init_stop_words (Except.ok text) cell).1
          = Except.ok ws) := by
  refine ⟨rfl, fun ws => rfl, ?_⟩
  intro text cell
  cases cell with
  | none => exact ⟨splitWords text, rfl⟩
  | some ws => exact ⟨ws, rfl⟩

/-- C9: the stop-word transition is one-way: once the cell holds a
sequence, any later initialization attempt leaves it unchanged, a later
attempt with a successfully decoded payload succeeds silently, and the
result of `get_stop_words` after a successful first initialization is
never changed by a second attempt. -/
theorem c9_init_one_way :
    (∀ ws : List String, ∀ decoded : Except String String,
      (init_stop_words decoded (some ws)).1 = some ws)
    ∧ (∀ ws : List String, ∀ text : String,
        init_stop_words (Except.ok text) (some ws) = (some ws, Except.ok ()))
    ∧ (∀ cell : StopWordsCell, ∀ text text2 : String,
        get_stop_words
            (init_stop_words (Except.ok text2)
              (init_stop_words (Except.ok text) cell).1).1
          = get_stop_words (init_stop_words (Except.ok text) cell).1) := by
  refine ⟨?_, ?_, ?_⟩
  · intro ws decoded
    cases decoded <;> rfl
  · intro ws text
    rfl
  · intro cell text text2
    cases cell <;> rfl

end Lnx
